import Mathlib

set_option maxHeartbeats 1000000

/-!
Shallow embedding of the `workcraft-js` client library: the `WorkcraftClient`
facade (SSE variant in `src/index.ts`, WebSocket variant in `src/types.ts`)
and the direct-database helper module (`getTaskById` / `createTask` /
`deleteTask`).  Definitions are transcribed from the TypeScript source;
theorems settle the specification claims about them.
-/

namespace Workcraft

/-- Abstract JSON-like values used for task payload arguments and results
(`any` in the TypeScript source). -/
inductive JVal where
  | str (s : String)
  | num (n : Int)
  | bool (b : Bool)
  deriving DecidableEq, Repr

/-- Optional overrides for the task payload; source `PartialTaskPayload`
(`src/index.ts` lines 8-15): every field optional (`?:` in TypeScript is
modelled as `Option`). -/
structure PartialTaskPayload where
  task_args : Option (List JVal)
  task_kwargs : Option (List (String × JVal))
  prerun_handler_args : Option (List JVal)
  prerun_handler_kwargs : Option (List (String × JVal))
  postrun_handler_args : Option (List JVal)
  postrun_handler_kwargs : Option (List (String × JVal))
  deriving DecidableEq, Repr

/-- The caller supplied no payload overrides at all (`taskPayload = {}` in the
source's destructuring default). -/
def emptyPartialPayload : PartialTaskPayload :=
  ⟨none, none, none, none, none, none⟩

/-- Fully-defaulted task payload; source `TaskPayload` (`src/index.ts`
lines 37-44).  `Record<string, any>` is modelled as an association list. -/
structure TaskPayload where
  task_args : List JVal
  task_kwargs : List (String × JVal)
  prerun_handler_args : List JVal
  prerun_handler_kwargs : List (String × JVal)
  postrun_handler_args : List JVal
  postrun_handler_kwargs : List (String × JVal)
  deriving DecidableEq, Repr

/-- Source `createDefaultTaskPayload` (`src/index.ts` lines 18-27): each field
is the caller's value if supplied, otherwise the empty collection (`??` in
TypeScript is `Option.getD` here). -/
def createDefaultTaskPayload (part : PartialTaskPayload) : TaskPayload :=
  ⟨part.task_args.getD [],
   part.task_kwargs.getD [],
   part.prerun_handler_args.getD [],
   part.prerun_handler_kwargs.getD [],
   part.postrun_handler_args.getD [],
   part.postrun_handler_kwargs.getD []⟩

/-- Source enum `TaskStatus` (`src/index.ts` lines 46-53). -/
inductive TaskStatus where
  | PENDING
  | RUNNING
  | SUCCESS
  | FAILURE
  | INVALID
  | CANCELLED
  deriving DecidableEq, Repr

/-- Source enum `PeonStatus` (`src/index.ts` lines 55-60). -/
inductive PeonStatus where
  | IDLE
  | PREPARING
  | WORKING
  | OFFLINE
  deriving DecidableEq, Repr

/-- Source type `Task` (`src/index.ts` lines 62-75); `Date` timestamps are
modelled as natural epoch values, nullable fields as `Option`. -/
structure Task where
  id : String
  task_name : String
  status : TaskStatus
  created_at : Nat
  updated_at : Nat
  worker_id : Option String
  queue : String
  payload : TaskPayload
  result : Option JVal
  retry_on_failure : Bool
  retry_count : Nat
  retry_limit : Nat
  deriving DecidableEq, Repr

/-- Source type `Peon` (`src/index.ts` lines 77-83). -/
structure Peon where
  id : String
  status : PeonStatus
  last_heartbeat : Nat
  current_task : Option String
  queues : String
  deriving DecidableEq, Repr

/-- Source enum `UpdateType` (`src/index.ts` lines 85-88). -/
inductive UpdateType where
  | task_update
  | peon_update
  deriving DecidableEq, Repr

/-- Source type `Update` (`src/index.ts` lines 90-96): tagged message carrying
an optional task and an optional peon snapshot. -/
structure Update where
  type : UpdateType
  task : Option Task
  peon : Option Peon
  deriving DecidableEq, Repr

/-- Source `CreateTaskOptions` (`src/index.ts` lines 29-35): only `taskName`
is required; the remaining fields are optional and defaulted by
`createTaskOrThrow`'s destructuring. -/
structure CreateTaskOptions where
  taskName : String
  taskPayload : Option PartialTaskPayload
  queue : Option String
  retryOnFailure : Option Bool
  retryLimit : Option Nat
  deriving DecidableEq, Repr

/-- The JSON request body built by `createTaskOrThrow`
(`src/index.ts` lines 250-257). -/
structure TaskRequestBody where
  id : String
  task_name : String
  queue : String
  retry_on_failure : Bool
  retry_limit : Nat
  payload : TaskPayload
  deriving DecidableEq, Repr

/-- The request body construction inside `createTaskOrThrow`
(`src/index.ts` lines 238-257): destructuring defaults
(`taskPayload = {}`, `queue = "DEFAULT"`, `retryOnFailure = false`,
`retryLimit = 0`) applied, `id` drawn fresh from `uuidv4()` (passed in here
as `freshId`), and the payload completed by `createDefaultTaskPayload`. -/
def createTaskBody (o : CreateTaskOptions) (freshId : String) : TaskRequestBody :=
  ⟨freshId,
   o.taskName,
   o.queue.getD "DEFAULT",
   o.retryOnFailure.getD false,
   o.retryLimit.getD 0,
   createDefaultTaskPayload (o.taskPayload.getD emptyPartialPayload)⟩

/-- An HTTP response as observed by the one-shot operations: its status code
and its body text (`res.status`, `await res.text()`). -/
structure HttpResponse where
  status : Nat
  body : String
  deriving DecidableEq, Repr

/-- Response handling of `createTaskOrThrow` (`src/index.ts` lines 259-262):
non-201 throws `"Failed to create a task: " + body`; 201 returns normally
(the subsequent `res.json()` decoding is outside these claims, so the ok
branch carries the response through). -/
def createTaskResult (res : HttpResponse) : Except String HttpResponse :=
  if res.status ≠ 201 then .error ("Failed to create a task: " ++ res.body)
  else .ok res

/-- Response handling of `getTaskByIdOrThrow` (`src/index.ts` lines 265-273). -/
def getTaskByIdResult (res : HttpResponse) : Except String HttpResponse :=
  if res.status ≠ 200 then .error ("Failed to get task by id: " ++ res.body)
  else .ok res

/-- Response handling of `getPeonByIdOrThrow` (`src/index.ts` lines 275-283). -/
def getPeonByIdResult (res : HttpResponse) : Except String HttpResponse :=
  if res.status ≠ 200 then .error ("Failed to get peon by id: " ++ res.body)
  else .ok res

/-- Response handling of `cancelTaskOrThrow` (`src/index.ts` lines 285-295):
non-200 throws `"Failed to cancel task: " + body`; 200 returns `undefined`. -/
def cancelTaskResult (res : HttpResponse) : Except String Unit :=
  if res.status ≠ 200 then .error ("Failed to cancel task: " ++ res.body)
  else .ok ()

/-- An outbound request after the API-key header has been attached. -/
structure AuthedRequest where
  url : String
  workcraftApiKeyHeader : String
  deriving DecidableEq, Repr

/-- Source `fetchWithApiKey` (`src/index.ts` lines 107-116): when
`this.apiKey === null` it throws `"No API key provided"` before calling
`fetch`; otherwise the request proceeds with the `WORKCRAFT_API_KEY` header
attached.  An `.error` result therefore means no network call was made. -/
def fetchWithApiKey (apiKey : Option String) (url : String) :
    Except String AuthedRequest :=
  match apiKey with
  | none => .error "No API key provided"
  | some k => .ok ⟨url, k⟩

/-- Result of invoking one subscriber callback: it either returns normally or
throws (the thrown message is what `console.error("Error in subscriber:", e)`
would log). -/
inductive CbRes where
  | ok
  | thrown (msg : String)
  deriving DecidableEq, Repr

/-- A subscriber callback (`type Subscriber = (message: Update) => void`),
modelled by its observable behaviour on each update: return or throw. -/
def Cb : Type := Update → CbRes

/-- State of one `WorkcraftClient` instance (SSE variant, `src/index.ts`):
`apiKey` (set by `init`), whether `this.sse` is non-null, the subscriber map
in insertion order (JavaScript `Map` iterates in insertion order and its keys
are unique), the `uuidv4()` freshness source modelled as a counter, and a
count of `EventSource` channels currently open (to state "at most one live
connection"). -/
structure ClientState where
  apiKey : Option String
  sse : Bool
  subscribers : List (Nat × Cb)
  nextUuid : Nat
  live : Nat

/-- Source `setupSSE` (`src/index.ts` lines 141-169): throws
`"Client must be initialized before subscribing"` when `this.apiKey === null`,
otherwise constructs the `EventSource` and stores it in `this.sse`.  The
`try/catch` around the constructor only concerns an environment where the
`EventSource` constructor itself throws; this embedding takes the constructor
to succeed. -/
def setupSSE (s : ClientState) : Except String ClientState :=
  match s.apiKey with
  | none => .error "Client must be initialized before subscribing"
  | some _ => .ok { s with sse := true, live := s.live + 1 }

/-- Source `subscribe` (`src/index.ts` lines 181-197): opens the channel via
`setupSSE` only when `this.sse` is null (a thrown error propagates and the
subscriber is not added), then stores the callback under a fresh uuid and
returns that id (the returned closure is `unsubscribe` below applied to it). -/
def subscribe (cb : Cb) (s : ClientState) : Except String (ClientState × Nat) :=
  match (if s.sse then .ok s else setupSSE s : Except String ClientState) with
  | .error e => .error e
  | .ok s1 =>
      .ok ({ s1 with
              subscribers := s1.subscribers ++ [(s1.nextUuid, cb)],
              nextUuid := s1.nextUuid + 1 },
           s1.nextUuid)

/-- The unsubscribe closure returned by `subscribe` (`src/index.ts` lines
189-196): delete this id from the map; if the map became empty and `this.sse`
is non-null, close the channel and null the field.  The boolean records
whether `this.sse.close()` was called. -/
def unsubscribe (id : Nat) (s : ClientState) : ClientState × Bool :=
  let remaining := s.subscribers.filter (fun p => p.1 != id)
  if remaining.isEmpty && s.sse then
    ({ s with subscribers := remaining, sse := false, live := s.live - 1 }, true)
  else
    ({ s with subscribers := remaining }, false)

/-- Source `disconnect` (`src/index.ts` lines 199-205): when `this.sse` is
non-null, close it, null the field and clear all subscriptions; otherwise do
nothing. -/
def disconnect (s : ClientState) : ClientState :=
  if s.sse then { s with sse := false, subscribers := [], live := s.live - 1 }
  else s

/-- Source `init` (`src/index.ts` lines 207-236): stores the configured API
key in `this.apiKey`, then runs the advisory connectivity probe, which only
logs and never changes client state. -/
def init (key : String) (s : ClientState) : ClientState :=
  { s with apiKey := some key }

/-- Source `notifySubscribers` (`src/index.ts` lines 171-179):
`this.subscribers.forEach` over the registry in insertion order; each
callback is run inside its own `try/catch`, so a throw is caught (and
logged) and iteration continues with the remaining callbacks.  The returned
list is the per-callback outcome log, in iteration order. -/
def notifySubscribers : List (Nat × Cb) → Update → List CbRes
  | [], _ => []
  | (_, cb) :: rest, u => cb u :: notifySubscribers rest u

/-- Fan-out of one decoded update at the client level: `notifySubscribers`
reads the registry and calls the callbacks; it assigns to no field of the
client, so the state component is returned unchanged — exactly the source,
which only reads `this.subscribers`. -/
def dispatchUpdate (s : ClientState) (u : Update) : ClientState × List CbRes :=
  (s, notifySubscribers s.subscribers u)

/-- The `onmessage` handler installed by `setupSSE` (`src/index.ts` lines
157-164): `JSON.parse` the raw event data (modelled by its outcome, `some`
a decoded `Update` or `none` for a parse throw) and notify subscribers; on
parse failure the catch block logs and nothing else happens.  Returns the
state, the callback outcome log, and whether a parse error was logged. -/
def onMessage (s : ClientState) (parsed : Option Update) :
    ClientState × List CbRes × Bool :=
  match parsed with
  | some u => (s, notifySubscribers s.subscribers u, false)
  | none => (s, [], true)

/-- One client-facing operation of the SSE client. -/
inductive Op where
  | init (key : String)
  | subscribe (cb : Cb)
  | unsub (id : Nat)
  | disconnect

/-- Effect of one operation on the client state.  A `subscribe` that throws
leaves the state unchanged (the mutation in the source happens after the
points that can throw). -/
def step (s : ClientState) : Op → ClientState
  | .init k => init k s
  | .subscribe cb =>
      match subscribe cb s with
      | .error _ => s
      | .ok (s1, _) => s1
  | .unsub id => (unsubscribe id s).1
  | .disconnect => disconnect s

/-- Run a sequence of client operations from a given state. -/
def runOps (s : ClientState) : List Op → ClientState
  | [] => s
  | op :: rest => runOps (step s op) rest

/-- A freshly constructed client: no API key, no channel, no subscribers. -/
def initialState : ClientState := ⟨none, false, [], 0, 0⟩

/-- Lifecycle invariant of the SSE client: the channel is open exactly when
the registry is non-empty, the number of live connections is 1 when the
channel is open and 0 otherwise, and no channel exists before `init`. -/
def Inv (s : ClientState) : Prop :=
  (s.sse = true ↔ s.subscribers ≠ []) ∧
  s.live = (if s.sse then 1 else 0) ∧
  (s.apiKey = none → s.sse = false)

namespace WS

/-!
WebSocket variant of the client (`src/types.ts` lines 144-368).  The event
loop is modelled explicitly: caller-facing operations and asynchronous
events (socket close delivery, reconnect timer expiry) are the steps of one
state machine.  Every socket created by `setupWebSocket` has
`handleWebSocketClose` installed as its `onclose` handler, so the close
event of any socket — caller-closed or fault-closed — runs that handler.
-/

/-- The socket object currently stored in `this.websocket`: `live` while the
connection is open; `dead` after a fault-initiated close, which runs the
close handler but leaves the field pointing at the closed socket
(`handleWebSocketClose` never nulls `this.websocket`). -/
inductive Sock where
  | live
  | dead
  deriving DecidableEq, Repr

/-- Source `reconnectDelay` (`src/types.ts` line 162): fixed at 5000 ms and
never reassigned. -/
def reconnectDelay : Nat := 5000

/-- State of one WebSocket-variant client plus the pending asynchronous
work: `hashed` is whether `init` has computed `hashedApiKey`; `ws` is
`this.websocket`; `subs` the subscriber ids in insertion order (callbacks are
irrelevant to the lifecycle claims and elided); `timers` the delays of the
pending `setTimeout` reconnect callbacks, in scheduling order;
`pendingClose` counts caller-closed sockets whose `onclose` event has not
yet been delivered; `liveConns` counts sockets currently open. -/
structure St where
  hashed : Bool
  ws : Option Sock
  subs : List Nat
  nextId : Nat
  timers : List Nat
  pendingClose : Nat
  liveConns : Nat
  deriving DecidableEq, Repr

/-- Source `setupWebSocket` (`src/types.ts` lines 183-219): throws when
`hashedApiKey` is null; otherwise creates the JWT and a new `WebSocket`,
stores it in `this.websocket` and installs the handlers.  The constructor
itself does not throw; connection failures surface later as error/close
events. -/
def setupWebSocket (s : St) : Option St :=
  if s.hashed then some { s with ws := some .live, liveConns := s.liveConns + 1 }
  else none

/-- Source `handleWebSocketClose` (`src/types.ts` lines 221-233): schedules
`setupWebSocket` to run after `reconnectDelay` (5000 ms), unconditionally —
it consults neither the registry nor any disconnect flag, and never cancels
anything. -/
def handleWebSocketClose (s : St) : St :=
  { s with timers := s.timers ++ [reconnectDelay] }

/-- One step of the client / event loop. -/
inductive Ev where
  | init
  | subscribe
  | unsub (id : Nat)
  | disconnect
  /-- Transport-level fault: the live socket closes unexpectedly; its
  `onclose` handler runs. -/
  | faultClose
  /-- The deferred `onclose` event of a caller-closed socket is delivered;
  its handler (`handleWebSocketClose`) runs. -/
  | deliverClose
  /-- The oldest pending reconnect timer elapses and its callback
  (`setupWebSocket` with a `catch` that only logs) runs. -/
  | timerFire
  deriving DecidableEq, Repr

/-- Effect of one step on the client state, transcribed from `src/types.ts`:
`subscribe` (lines 245-262) opens via `setupWebSocket` only when
`this.websocket` is null; `unsub` is the returned closure (lines 253-261),
which closes the socket when the registry becomes empty (a live socket's
close event is then delivered later; `close()` on an already-closed socket
does nothing); `disconnect` (lines 265-271) closes the socket, nulls the
field and clears the registry — and cancels nothing else; `faultClose` runs
the `onclose` handler and leaves `this.websocket` non-null; `timerFire` runs
`setupWebSocket`, whose promise rejection is only logged. -/
def step (s : St) : Ev → St
  | .init => { s with hashed := true }
  | .subscribe =>
      match s.ws with
      | some _ => { s with subs := s.subs ++ [s.nextId], nextId := s.nextId + 1 }
      | none =>
          match setupWebSocket s with
          | none => s
          | some s1 => { s1 with subs := s1.subs ++ [s1.nextId], nextId := s1.nextId + 1 }
  | .unsub id =>
      let remaining := s.subs.filter (fun i => i != id)
      if remaining.isEmpty && s.ws.isSome then
        match s.ws with
        | some .live =>
            { s with subs := remaining, ws := none,
                     liveConns := s.liveConns - 1,
                     pendingClose := s.pendingClose + 1 }
        | _ => { s with subs := remaining, ws := none }
      else { s with subs := remaining }
  | .disconnect =>
      match s.ws with
      | some .live =>
          { s with ws := none, subs := [],
                   liveConns := s.liveConns - 1,
                   pendingClose := s.pendingClose + 1 }
      | some .dead => { s with ws := none, subs := [] }
      | none => s
  | .faultClose =>
      match s.ws with
      | some .live =>
          handleWebSocketClose { s with ws := some .dead, liveConns := s.liveConns - 1 }
      | _ => s
  | .deliverClose =>
      if s.pendingClose > 0 then
        handleWebSocketClose { s with pendingClose := s.pendingClose - 1 }
      else s
  | .timerFire =>
      match s.timers with
      | [] => s
      | _ :: rest =>
          let s1 := { s with timers := rest }
          match setupWebSocket s1 with
          | none => s1
          | some s2 => s2

/-- Run a sequence of steps. -/
def run (s : St) : List Ev → St
  | [] => s
  | e :: es => run (step s e) es

/-- A freshly constructed WebSocket-variant client. -/
def st0 : St := ⟨false, none, [], 0, [], 0, 0⟩

end WS

namespace DB

/-!
The direct-database module (`src/unnamed/part_000`): `assertTablesSetup`,
`getTaskById`, `createTask`, `deleteTask` against the `peon` and
`bountyboard` tables.  `assertTablesSetup` is an `async` function; in
`getTaskById` and `deleteTask` it is called without `await`, so the guard
tests the Promise object itself — that truthiness semantics is embedded
explicitly.
-/

/-- A JavaScript Promise object, as a value (not yet awaited). -/
structure JSPromise (α : Type) where
  resolves : α
  deriving DecidableEq, Repr

/-- JavaScript truthiness of a Promise: a Promise is an object, and every
object is truthy, whatever value it later resolves to. -/
def truthy {α : Type} (_ : JSPromise α) : Bool := true

/-- A database reachable through `MySQLConnectionConfig`: which of the two
required tables exist, and the rows of `bountyboard`.  The connection
parameters themselves (host, port, user, password, database name) do not
influence the modelled behaviour and are elided. -/
structure Db where
  hasPeon : Bool
  hasBountyboard : Bool
  bountyboard : List Task
  deriving DecidableEq, Repr

/-- Source `assertTablesSetup` (part_000 lines 28-69): queries
`information_schema.TABLES` for `peon` and `bountyboard` and resolves `true`
exactly when both exist (connection errors, which also resolve `false`, are
not modelled). -/
def assertTablesSetup (db : Db) : Bool :=
  db.hasPeon && db.hasBountyboard

/-- The tables-not-set-up failure (the spec's StorageUnavailable). -/
inductive DbError where
  | tablesNotSetUp
  deriving DecidableEq, Repr

/-- A query issued against the two required tables. -/
inductive Query where
  | selectBountyboardById (id : String)
  | insertBountyboard (id : String)
  | deleteBountyboardPending (id : String)
  deriving DecidableEq, Repr

/-- Source `getTaskById` (part_000 lines 79-107).  The guard is
`if (!assertTablesSetup(config))` — the async call is not awaited, so `!`
applies to the Promise object, which is truthy: the guard is never taken.
The function then connects and runs `SELECT * FROM bountyboard WHERE id = ?`.
Returns the outcome and the list of queries issued against the tables. -/
def getTaskById (id : String) (db : Db) :
    Except DbError (Option Task) × List Query :=
  if !(truthy ⟨assertTablesSetup db⟩) then (.error .tablesNotSetUp, [])
  else (.ok (db.bountyboard.find? (fun t => t.id == id)),
        [Query.selectBountyboardById id])

/-- Source `createTask` (part_000 lines 137-202).  Here the guard is
`if (!(await assertTablesSetup(config)))` — correctly awaited — so a missing
table raises the tables-not-set-up error before any query.  Otherwise the
defaulted task row is inserted into `bountyboard` (the payload, stringified
in the source, is kept structured here) and the inserted row fetched back
via `getTaskById`. -/
def createTask (o : CreateTaskOptions) (freshId : String) (now : Nat)
    (db : Db) : Except DbError (Option Task) × List Query × Db :=
  if !(assertTablesSetup db) then (.error .tablesNotSetUp, [], db)
  else
    let payload := createDefaultTaskPayload (o.taskPayload.getD emptyPartialPayload)
    let t : Task := ⟨freshId, o.taskName, .PENDING, now, now, none,
                     o.queue.getD "DEFAULT", payload, none,
                     o.retryOnFailure.getD false, 0, o.retryLimit.getD 0⟩
    let db1 : Db := { db with bountyboard := db.bountyboard ++ [t] }
    let r := getTaskById freshId db1
    (r.1, Query.insertBountyboard freshId :: r.2, db1)

/-- Source `deleteTask` (part_000 lines 214-240).  Same unawaited guard as
`getTaskById`, so it is never taken; the function then runs
`DELETE FROM bountyboard WHERE id = ? AND status = 'PENDING'`.  The source
then tests `Array.isArray(results) && results.length > 0`; a DELETE yields a
result-set header, not an array, so the resolved value is always `false`. -/
def deleteTask (id : String) (db : Db) :
    Except DbError Bool × List Query × Db :=
  if !(truthy ⟨assertTablesSetup db⟩) then (.error .tablesNotSetUp, [], db)
  else
    let kept := db.bountyboard.filter
      (fun t => !(t.id == id && t.status == TaskStatus.PENDING))
    let db1 : Db := { db with bountyboard := kept }
    (.ok false, [Query.deleteBountyboardPending id], db1)

/-- A database in which both required tables are missing. -/
def dbMissingTables : Db := ⟨false, false, []⟩

end DB

theorem inv_initialState : Inv initialState := by
  refine ⟨by simp [initialState], by simp [initialState], by simp [initialState]⟩

theorem inv_step (s : ClientState) (op : Op) (h : Inv s) : Inv (step s op) := by
  obtain ⟨h1, h2, h3⟩ := h
  cases op with
  | init k =>
      exact ⟨h1, h2, by simp [step, init]⟩
  | subscribe cb =>
      by_cases hsse : s.sse
      · have hk : s.apiKey ≠ none := fun hn => by simp [h3 hn] at hsse
        refine ⟨by simp [step, subscribe, hsse],
                by simpa [step, subscribe, hsse] using h2, ?_⟩
        intro hn
        exact (hk (show s.apiKey = none by
          simpa [step, subscribe, hsse] using hn)).elim
      · cases hk : s.apiKey with
        | none =>
            have hid : step s (.subscribe cb) = s := by
              simp [step, subscribe, hsse, setupSSE, hk]
            rw [hid]; exact ⟨h1, h2, h3⟩
        | some k =>
            have hl : s.live = 0 := by simpa [hsse] using h2
            refine ⟨by simp [step, subscribe, hsse, setupSSE, hk],
                    by simp [step, subscribe, hsse, setupSSE, hk, hl], ?_⟩
            intro hn
            simp [step, subscribe, hsse, setupSSE, hk] at hn
  | unsub id =>
      by_cases hr : (s.subscribers.filter (fun p => p.1 != id)).isEmpty = true
      · have hrl : s.subscribers.filter (fun p => p.1 != id) = [] :=
          List.isEmpty_iff.mp hr
        by_cases hsse : s.sse
        · have hl : s.live = 1 := by simpa [hsse] using h2
          refine ⟨by simp [step, unsubscribe, hr, hsse, hrl],
                  by simp [step, unsubscribe, hr, hsse, hl],
                  by simp [step, unsubscribe, hr, hsse]⟩
        · have hl : s.live = 0 := by simpa [hsse] using h2
          refine ⟨by simp [step, unsubscribe, hr, hsse, hrl],
                  by simp [step, unsubscribe, hr, hsse, hl],
                  by simp [step, unsubscribe, hr, hsse]⟩
      · by_cases hsse : s.sse
        · have hl : s.live = 1 := by simpa [hsse] using h2
          have hne : s.subscribers.filter (fun p => p.1 != id) ≠ [] := by
            intro he; exact hr (by simp [he])
          refine ⟨by simp [step, unsubscribe, hr, hsse, hne],
                  by simp [step, unsubscribe, hr, hsse, hl], ?_⟩
          intro hn
          have hnone : s.apiKey = none := by
            simpa [step, unsubscribe, hr, hsse] using hn
          rw [h3 hnone] at hsse
          exact (Bool.false_ne_true hsse).elim
        · exfalso
          have hsub : s.subscribers = [] := by
            by_contra hne2
            exact hsse (h1.mpr hne2)
          exact hr (by simp [hsub])
  | disconnect =>
      by_cases hsse : s.sse
      · have hl : s.live = 1 := by simpa [hsse] using h2
        refine ⟨by simp [step, disconnect, hsse],
                by simp [step, disconnect, hsse, hl],
                by simp [step, disconnect, hsse]⟩
      · have hid : step s .disconnect = s := by simp [step, disconnect, hsse]
        rw [hid]; exact ⟨h1, h2, h3⟩

theorem inv_runOps (ops : List Op) :
    ∀ s : ClientState, Inv s → Inv (runOps s ops) := by
  induction ops with
  | nil => intro s h; exact h
  | cons op rest ih => intro s h; exact ih (step s op) (inv_step s op h)

theorem apiKey_step (s : ClientState) (op : Op) (hop : ∀ k, op ≠ .init k) :
    (step s op).apiKey = s.apiKey := by
  cases op with
  | init k => exact ((hop k) rfl).elim
  | subscribe cb =>
      by_cases hsse : s.sse
      · simp [step, subscribe, hsse]
      · cases hk : s.apiKey with
        | none => simp [step, subscribe, hsse, setupSSE, hk]
        | some k => simp [step, subscribe, hsse, setupSSE, hk]
  | unsub id =>
      by_cases hg : ((s.subscribers.filter (fun p => p.1 != id)).isEmpty && s.sse) = true
      · simp [step, unsubscribe, hg]
      · simp [step, unsubscribe, hg]
  | disconnect =>
      by_cases hsse : s.sse
      · simp [step, disconnect, hsse]
      · simp [step, disconnect, hsse]

theorem noInit_apiKey :
    ∀ (ops : List Op), (∀ k, Op.init k ∉ ops) →
      ∀ s : ClientState, (runOps s ops).apiKey = s.apiKey := by
  intro ops
  induction ops with
  | nil => intro _ s; rfl
  | cons op rest ih =>
      intro h s
      have hop : ∀ k, op ≠ .init k := by
        intro k he
        exact h k (by rw [he]; exact List.mem_cons_self _ _)
      have hrest : ∀ k, Op.init k ∉ rest := by
        intro k hk
        exact h k (List.mem_cons_of_mem _ hk)
      show (runOps (step s op) rest).apiKey = s.apiKey
      rw [ih hrest (step s op), apiKey_step s op hop]

/-- Every callback in the registry is run, in registration order, and its
outcome recorded — a thrown callback contributes its (caught) outcome and the
remaining callbacks still run. -/
theorem notifySubscribers_eq_map (l : List (Nat × Cb)) (u : Update) :
    notifySubscribers l u = l.map (fun p => p.2 u) := by
  induction l with
  | nil => rfl
  | cons a t ih => cases a with | mk i cb => simp [notifySubscribers, ih]

/-- Filtering a list twice with the same predicate equals filtering once. -/
theorem filter_twice {α : Type} (p : α → Bool) (l : List α) :
    (l.filter p).filter p = l.filter p := by
  induction l with
  | nil => rfl
  | cons a t ih =>
      by_cases hp : p a
      · simp [List.filter_cons, hp, ih]
      · simp [List.filter_cons, hp, ih]

/-- C1: for every client instance and every sequence of subscribe /
unsubscribe / disconnect (and init) operations, the realtime channel is open
if and only if the subscriber count is greater than zero, and at most one
live connection exists. -/
theorem c1_channel_open_iff_subscribers (ops : List Op) :
    ((runOps initialState ops).sse = true ↔
      0 < (runOps initialState ops).subscribers.length) ∧
    (runOps initialState ops).live ≤ 1 := by
  obtain ⟨h1, h2, _⟩ := inv_runOps ops initialState inv_initialState
  constructor
  · rw [h1]
    exact ⟨fun hne => List.length_pos.mpr hne, fun hl => List.length_pos.mp hl⟩
  · rw [h2]
    by_cases hsse : (runOps initialState ops).sse
    · simp [hsse]
    · simp [hsse]

/-- C5: on every decoded update and every registry state, each registered
callback is invoked exactly once, in registration order (the outcome log is
exactly the registration-ordered map of the callbacks over the update, so a
callback that throws is caught and logged while every remaining callback is
still invoked), and the registry and connection state are left unchanged. -/
theorem c5_dispatch_once_in_order (s : ClientState) (u : Update) :
    (dispatchUpdate s u).1 = s ∧
    (dispatchUpdate s u).2 = s.subscribers.map (fun p => p.2 u) ∧
    (dispatchUpdate s u).2.length = s.subscribers.length := by
  refine ⟨rfl, notifySubscribers_eq_map s.subscribers u, ?_⟩
  rw [show (dispatchUpdate s u).2 = notifySubscribers s.subscribers u from rfl,
      notifySubscribers_eq_map s.subscribers u, List.length_map]

/-- C6: an inbound raw message that fails to parse as JSON is dropped: the
parse error is logged, no subscriber callback is invoked, and the client
state — in particular the open channel — is unchanged; on any message the
handler never changes the client state. -/
theorem c6_malformed_message_dropped (s : ClientState) :
    (onMessage s none).1 = s ∧
    (onMessage s none).2.1 = [] ∧
    (onMessage s none).2.2 = true ∧
    (∀ parsed, (onMessage s parsed).1 = s) := by
  refine ⟨rfl, rfl, rfl, ?_⟩
  intro parsed
  cases parsed with
  | none => rfl
  | some u => rfl

/-- C9: on a client on which `init` has not run, any subscribe call throws
the not-initialized error before any channel is opened (the state is
unchanged), and any authenticated request throws before any network call is
made. -/
theorem c9_not_initialized_rejected (ops : List Op)
    (h : ∀ k, Op.init k ∉ ops) (cb : Cb) (url : String) :
    subscribe cb (runOps initialState ops) =
      .error "Client must be initialized before subscribing" ∧
    step (runOps initialState ops) (.subscribe cb) = runOps initialState ops ∧
    fetchWithApiKey (runOps initialState ops).apiKey url =
      .error "No API key provided" := by
  have hkey : (runOps initialState ops).apiKey = none := by
    rw [noInit_apiKey ops h initialState]; rfl
  have hinv := inv_runOps ops initialState inv_initialState
  have hsse : (runOps initialState ops).sse = false := hinv.2.2 hkey
  refine ⟨?_, ?_, ?_⟩
  · simp [subscribe, hsse, setupSSE, hkey]
  · simp [step, subscribe, hsse, setupSSE, hkey]
  · simp [fetchWithApiKey, hkey]

/-- Witness for C9: on a fresh client (empty operation history), subscribing
and requesting both fail with the not-initialized errors. -/
theorem c9_not_initialized_rejected_witness :
    subscribe (fun _ => CbRes.ok) (runOps initialState []) =
      .error "Client must be initialized before subscribing" ∧
    step (runOps initialState []) (.subscribe (fun _ => CbRes.ok)) =
      runOps initialState [] ∧
    fetchWithApiKey (runOps initialState []).apiKey "http://x/api/task" =
      .error "No API key provided" :=
  c9_not_initialized_rejected [] (by intro k; simp)
    (fun _ => CbRes.ok) "http://x/api/task"

/-- C10: the unsubscribe closure is idempotent — after its first invocation,
a second (or later) invocation leaves the subscriber registry and the
connection state exactly as they were, and performs no `close()` call on the
channel. -/
theorem c10_unsubscribe_idempotent (s : ClientState) (id : Nat) :
    unsubscribe id (unsubscribe id s).1 = ((unsubscribe id s).1, false) := by
  cases hr : (s.subscribers.filter (fun p => p.1 != id)).isEmpty with
  | false => simp [unsubscribe, filter_twice, hr]
  | true =>
      have hrl : s.subscribers.filter (fun p => p.1 != id) = [] :=
        List.isEmpty_iff.mp hr
      cases hsse : s.sse with
      | false => simp [unsubscribe, hr, hrl, hsse]
      | true => simp [unsubscribe, hr, hrl, hsse]

/-- C2 (refuted; code bug): a caller-initiated close does schedule a
reconnect.  Both after unsubscribing the last subscriber and after
`disconnect`, delivering the closed socket's `onclose` event runs
`handleWebSocketClose`, which schedules a 5000 ms reconnect timer — the
handler never distinguishes caller-initiated from fault-initiated closes. -/
theorem c2_caller_close_schedules_reconnect :
    (WS.run WS.st0 [.init, .subscribe, .unsub 0, .deliverClose]).timers =
      [WS.reconnectDelay] ∧
    (WS.run WS.st0 [.init, .subscribe, .disconnect, .deliverClose]).timers =
      [WS.reconnectDelay] :=
  ⟨rfl, rfl⟩

/-- C3 (refuted; code bug): `disconnect` does not cancel a pending reconnect
timer.  After a fault-initiated close schedules the 5000 ms reconnect,
`disconnect` clears the registry and nulls the socket but the timer is still
pending; when it fires, `setupWebSocket` opens a fresh connection — the
channel is reopened after `disconnect`, with an empty registry. -/
theorem c3_reconnect_after_disconnect_reopens :
    (WS.run WS.st0 [.init, .subscribe, .faultClose, .disconnect]).timers =
      [WS.reconnectDelay] ∧
    (WS.run WS.st0 [.init, .subscribe, .faultClose, .disconnect]).subs = [] ∧
    (WS.run WS.st0 [.init, .subscribe, .faultClose, .disconnect]).ws = none ∧
    (WS.run WS.st0
        [.init, .subscribe, .faultClose, .disconnect, .timerFire]).ws =
      some WS.Sock.live ∧
    (WS.run WS.st0
        [.init, .subscribe, .faultClose, .disconnect, .timerFire]).liveConns
      = 1 :=
  ⟨rfl, rfl, rfl, rfl, rfl⟩

/-- C4 (refuted for `getTaskById` and `deleteTask`; code bug): with both
required tables missing, `assertTablesSetup` resolves `false`, yet
`getTaskById` and `deleteTask` do not raise the tables-not-set-up error —
their unawaited guard tests a truthy Promise — and each issues its query
against `bountyboard` anyway; only `createTask`, which awaits the check,
fails before any query. -/
theorem c4_tables_guard_skipped :
    DB.assertTablesSetup DB.dbMissingTables = false ∧
    DB.getTaskById "t1" DB.dbMissingTables =
      (.ok none, [DB.Query.selectBountyboardById "t1"]) ∧
    (DB.deleteTask "t1" DB.dbMissingTables).1 = .ok false ∧
    (DB.deleteTask "t1" DB.dbMissingTables).2.1 =
      [DB.Query.deleteBountyboardPending "t1"] ∧
    (DB.createTask ⟨"x", none, none, none, none⟩ "id0" 0
        DB.dbMissingTables).1 = .error .tablesNotSetUp :=
  ⟨rfl, rfl, rfl, rfl, rfl⟩

/-- C7: every one-shot operation throws a failure whose message carries the
response body text whenever the status is not its success status (201 for
create, 200 otherwise), and returns normally on the success status. -/
theorem c7_nonsuccess_surfaces_body (res : HttpResponse) :
    (res.status ≠ 201 →
      createTaskResult res = .error ("Failed to create a task: " ++ res.body)) ∧
    (res.status = 201 → createTaskResult res = .ok res) ∧
    (res.status ≠ 200 →
      getTaskByIdResult res = .error ("Failed to get task by id: " ++ res.body)) ∧
    (res.status = 200 → getTaskByIdResult res = .ok res) ∧
    (res.status ≠ 200 →
      getPeonByIdResult res = .error ("Failed to get peon by id: " ++ res.body)) ∧
    (res.status = 200 → getPeonByIdResult res = .ok res) ∧
    (res.status ≠ 200 →
      cancelTaskResult res = .error ("Failed to cancel task: " ++ res.body)) ∧
    (res.status = 200 → cancelTaskResult res = .ok ()) := by
  refine ⟨?_, ?_, ?_, ?_, ?_, ?_, ?_, ?_⟩ <;> intro h
  · simp [createTaskResult, h]
  · simp [createTaskResult, h]
  · simp [getTaskByIdResult, h]
  · simp [getTaskByIdResult, h]
  · simp [getPeonByIdResult, h]
  · simp [getPeonByIdResult, h]
  · simp [cancelTaskResult, h]
  · simp [cancelTaskResult, h]

/-- Witness for C7: concrete non-success responses carry the body text in
the thrown message; concrete success responses return normally. -/
theorem c7_nonsuccess_surfaces_body_witness :
    createTaskResult ⟨400, "boom"⟩ =
      .error ("Failed to create a task: " ++ "boom") ∧
    createTaskResult ⟨201, "made"⟩ = .ok ⟨201, "made"⟩ ∧
    getTaskByIdResult ⟨500, "err"⟩ =
      .error ("Failed to get task by id: " ++ "err") ∧
    getTaskByIdResult ⟨200, "t"⟩ = .ok ⟨200, "t"⟩ ∧
    getPeonByIdResult ⟨404, "missing"⟩ =
      .error ("Failed to get peon by id: " ++ "missing") ∧
    getPeonByIdResult ⟨200, "p"⟩ = .ok ⟨200, "p"⟩ ∧
    cancelTaskResult ⟨409, "conflict"⟩ =
      .error ("Failed to cancel task: " ++ "conflict") ∧
    cancelTaskResult ⟨200, ""⟩ = .ok () :=
  ⟨(c7_nonsuccess_surfaces_body ⟨400, "boom"⟩).1 (by decide),
   (c7_nonsuccess_surfaces_body ⟨201, "made"⟩).2.1 rfl,
   (c7_nonsuccess_surfaces_body ⟨500, "err"⟩).2.2.1 (by decide),
   (c7_nonsuccess_surfaces_body ⟨200, "t"⟩).2.2.2.1 rfl,
   (c7_nonsuccess_surfaces_body ⟨404, "missing"⟩).2.2.2.2.1 (by decide),
   (c7_nonsuccess_surfaces_body ⟨200, "p"⟩).2.2.2.2.2.1 rfl,
   (c7_nonsuccess_surfaces_body ⟨409, "conflict"⟩).2.2.2.2.2.2.1 (by decide),
   (c7_nonsuccess_surfaces_body ⟨200, ""⟩).2.2.2.2.2.2.2 rfl⟩

/-- C8: a create-task call with only a task name produces a request body
with all six payload fields defaulted to empty collections, queue
`"DEFAULT"`, `retry_on_failure = false` and `retry_limit = 0`; every field
the caller does supply is passed through unchanged. -/
theorem c8_create_task_defaults (name fid : String) (o : CreateTaskOptions) :
    createTaskBody ⟨name, none, none, none, none⟩ fid =
      ⟨fid, name, "DEFAULT", false, 0, ⟨[], [], [], [], [], []⟩⟩ ∧
    (∀ p, o.taskPayload = some p →
      (∀ xs, p.task_args = some xs →
        (createTaskBody o fid).payload.task_args = xs) ∧
      (∀ xs, p.task_kwargs = some xs →
        (createTaskBody o fid).payload.task_kwargs = xs) ∧
      (∀ xs, p.prerun_handler_args = some xs →
        (createTaskBody o fid).payload.prerun_handler_args = xs) ∧
      (∀ xs, p.prerun_handler_kwargs = some xs →
        (createTaskBody o fid).payload.prerun_handler_kwargs = xs) ∧
      (∀ xs, p.postrun_handler_args = some xs →
        (createTaskBody o fid).payload.postrun_handler_args = xs) ∧
      (∀ xs, p.postrun_handler_kwargs = some xs →
        (createTaskBody o fid).payload.postrun_handler_kwargs = xs)) ∧
    (∀ q, o.queue = some q → (createTaskBody o fid).queue = q) ∧
    (∀ b, o.retryOnFailure = some b →
      (createTaskBody o fid).retry_on_failure = b) ∧
    (∀ k, o.retryLimit = some k → (createTaskBody o fid).retry_limit = k) ∧
    (createTaskBody o fid).task_name = o.taskName ∧
    (createTaskBody o fid).id = fid := by
  refine ⟨rfl, ?_, ?_, ?_, ?_, rfl, rfl⟩
  · intro p hp
    refine ⟨?_, ?_, ?_, ?_, ?_, ?_⟩ <;> intro xs hx <;>
      simp [createTaskBody, createDefaultTaskPayload, hp, hx]
  · intro q hq; simp [createTaskBody, hq]
  · intro b hb; simp [createTaskBody, hb]
  · intro k hk; simp [createTaskBody, hk]

/-- Witness for C8: a concrete call supplying every field passes each value
through unchanged, and the name-only call produces the fully-defaulted
body. -/
theorem c8_create_task_defaults_witness :
    createTaskBody ⟨"x", none, none, none, none⟩ "id-1" =
      ⟨"id-1", "x", "DEFAULT", false, 0, ⟨[], [], [], [], [], []⟩⟩ ∧
    (createTaskBody
        ⟨"x",
         some ⟨some [JVal.num 1], some [("k", JVal.num 2)], some [],
               some [("pk", JVal.str "v")], some [JVal.str "a"], some []⟩,
         some "Q", some true, some 7⟩ "id-1").payload.task_args =
      [JVal.num 1] ∧
    (createTaskBody
        ⟨"x",
         some ⟨some [JVal.num 1], some [("k", JVal.num 2)], some [],
               some [("pk", JVal.str "v")], some [JVal.str "a"], some []⟩,
         some "Q", some true, some 7⟩ "id-1").queue = "Q" ∧
    (createTaskBody
        ⟨"x",
         some ⟨some [JVal.num 1], some [("k", JVal.num 2)], some [],
               some [("pk", JVal.str "v")], some [JVal.str "a"], some []⟩,
         some "Q", some true, some 7⟩ "id-1").retry_on_failure = true ∧
    (createTaskBody
        ⟨"x",
         some ⟨some [JVal.num 1], some [("k", JVal.num 2)], some [],
               some [("pk", JVal.str "v")], some [JVal.str "a"], some []⟩,
         some "Q", some true, some 7⟩ "id-1").retry_limit = 7 :=
  ⟨(c8_create_task_defaults "x" "id-1" ⟨"x", none, none, none, none⟩).1,
   ((c8_create_task_defaults "x" "id-1" _).2.1 _ rfl).1 _ rfl,
   (c8_create_task_defaults "x" "id-1" _).2.2.1 _ rfl,
   (c8_create_task_defaults "x" "id-1" _).2.2.2.1 _ rfl,
   (c8_create_task_defaults "x" "id-1" _).2.2.2.2.1 _ rfl⟩

end Workcraft
